import Mathlib

/-!
# Verification of the route-planning weather-analysis tool

A shallow embedding of `src/tools/route_planning.py` together with proofs
about its severity classifier, recommendation engine, coordinate geometry,
route resolver and analysis orchestrator.

Modelling conventions:
* Python floats are modelled as `ℝ` where trigonometry is involved
  (coordinates, distances) and as `ℚ` where only comparisons occur
  (temperatures, wind speeds).
* Python exceptions are modelled with `Except String`; a collaborator that
  can raise returns `Except.error`.
* The external collaborators (geocoder, directions HTTP endpoint, reverse
  geocoding HTTP endpoint, weather provider) are fields of an `Env`
  record, universally quantified in the theorems.
* `round(x, 2)` is modelled with Mathlib's `round` (half-up instead of
  Python's half-to-even; no statement below depends on exact ties).
-/

set_option maxHeartbeats 1000000
set_option maxRecDepth 4000

namespace RoutePlanning

/-- Python `str.lower()` (per-character lowering, as for ASCII text). -/
def lowerStr (s : String) : String := ⟨s.data.map Char.toLower⟩

/-- Python's substring test `needle in hay`. -/
def strContains (hay needle : String) : Bool :=
  hay.data.tails.any (fun t => needle.data.isPrefixOf t)

/-- The four severity strings "low" / "medium" / "high" / "critical"
returned by `assess_weather_severity`. -/
inductive Severity where
  | low
  | medium
  | high
  | critical
deriving DecidableEq

/-- A weather observation dictionary as consumed by
`assess_weather_severity` and the orchestrator; absent dictionary keys are
`none`. -/
structure Weather where
  condition : Option String
  wind_speed : Option ℚ
  temperature : Option ℚ
  success : Bool

/-- Keyword list of the CRITICAL tier (line 514). -/
def criticalKeywords : List String :=
  ["thunderstorm", "tornado", "hurricane", "cyclone", "severe storm"]

/-- Keyword list of the HIGH tier (line 524). -/
def highKeywords : List String :=
  ["heavy rain", "heavy snow", "blizzard", "hail", "ice storm"]

/-- Keyword list of the MEDIUM tier (line 534). -/
def mediumKeywords : List String :=
  ["moderate rain", "light snow", "fog", "mist"]

/-- `assess_weather_severity` (lines 498-545): early-return chain over the
lower-cased condition text, wind speed (default 0) and temperature
(default 25). -/
def assess_weather_severity (weather : Weather) : Severity :=
  let condition := lowerStr (weather.condition.getD "")
  let wind_speed := weather.wind_speed.getD 0
  let temp := weather.temperature.getD 25
  if criticalKeywords.any (fun w => strContains condition w) then Severity.critical
  else if 48 < temp ∨ temp < -5 then Severity.critical
  else if 60 < wind_speed then Severity.critical
  else if highKeywords.any (fun w => strContains condition w) then Severity.high
  else if 43 < temp ∨ temp < 2 then Severity.high
  else if 40 < wind_speed then Severity.high
  else if mediumKeywords.any (fun w => strContains condition w) then Severity.medium
  else if 38 < temp ∨ temp < 8 then Severity.medium
  else if 25 < wind_speed then Severity.medium
  else Severity.low

/-- The classifier as worded by the specification: one OR'd condition per
tier, tiers tried in CRITICAL, HIGH, MEDIUM order, first match winning.
Used as the comparison point for the classifier claim. -/
def classifierSpec (weather : Weather) : Severity :=
  let condition := lowerStr (weather.condition.getD "")
  let wind := weather.wind_speed.getD 0
  let temp := weather.temperature.getD 25
  if criticalKeywords.any (fun w => strContains condition w) = true ∨
      48 < temp ∨ temp < -5 ∨ 60 < wind then Severity.critical
  else if highKeywords.any (fun w => strContains condition w) = true ∨
      43 < temp ∨ temp < 2 ∨ 40 < wind then Severity.high
  else if mediumKeywords.any (fun w => strContains condition w) = true ∨
      38 < temp ∨ temp < 8 ∨ 25 < wind then Severity.medium
  else Severity.low

/-- One entry of the `city_weather` list assembled by the orchestrator
(lines 444-452). -/
structure CityData where
  city : String
  state : String
  distance_km : ℝ
  weather : Weather
  severity : Severity
  is_start : Bool
  is_end : Bool

/-- Number of assessments with the given severity; the incrementally
built `severity_counts` dictionary of lines 569-572 read at one key. -/
def countSev (cw : List CityData) (s : Severity) : ℕ :=
  (cw.filter (fun c => decide (c.severity = s))).length

/-- `generate_route_recommendation` (lines 548-611).  The `warnings` and
`severe` arguments are accepted and ignored, exactly as in the source. -/
def generate_route_recommendation (city_weather : List CityData)
    (warnings severe : List String) : String :=
  match city_weather with
  | [] => "Unable to generate recommendation - no weather data available."
  | _ :: _ =>
    let total_cities := city_weather.length
    if 0 < countSev city_weather Severity.critical then
      let critical_cities :=
        (city_weather.filter (fun c => decide (c.severity = Severity.critical))).map
          (fun c => c.city)
      "🚨 DO NOT TRAVEL - Critical weather conditions detected in " ++
        String.intercalate ", " critical_cities ++
        ". Extreme weather poses serious safety risks (severe storms, extreme temperatures, or hurricane-force winds). POSTPONE TRAVEL or take alternative route."
    else if 2 ≤ countSev city_weather Severity.high then
      let high_cities :=
        (city_weather.filter (fun c => decide (c.severity = Severity.high))).map
          (fun c => c.city)
      "⚠️ TRAVEL NOT RECOMMENDED - Hazardous weather in " ++
        String.intercalate ", " high_cities ++
        ". Heavy rain, snow, or very strong winds expected. Consider delaying travel until conditions improve."
    else if countSev city_weather Severity.high = 1 then
      match city_weather.find? (fun c => decide (c.severity = Severity.high)) with
      | some c =>
        "⚠️ CAUTION ADVISED - Hazardous weather expected in " ++ c.city ++
          ". Travel possible but drive carefully through this area. Monitor weather updates."
      | none => ""
    else if (total_cities : ℚ) * (1 / 2) ≤ (countSev city_weather Severity.medium : ℚ) then
      "✅ TRAVEL SAFE WITH CAUTION - Some areas may have moderate rain, fog, or winds. Normal travel possible, just drive carefully and stay alert to changing conditions."
    else
      "✅ EXCELLENT CONDITIONS - Weather is favorable for travel along this route. Safe journey expected. Enjoy your trip!"

/-- The recommendation selection as worded by the specification claim:
priority order CRITICAL presence, two-or-more HIGH, exactly-one HIGH,
MEDIUM at least half, otherwise excellent; fixed message on an empty
list.  Used as the comparison point for the recommendation claim. -/
def recommendationSpec (assessments : List CityData) : String :=
  match assessments with
  | [] => "Unable to generate recommendation - no weather data available."
  | _ :: _ =>
    if assessments.any (fun c => decide (c.severity = Severity.critical)) = true then
      "🚨 DO NOT TRAVEL - Critical weather conditions detected in " ++
        String.intercalate ", "
          ((assessments.filter (fun c => decide (c.severity = Severity.critical))).map
            (fun c => c.city)) ++
        ". Extreme weather poses serious safety risks (severe storms, extreme temperatures, or hurricane-force winds). POSTPONE TRAVEL or take alternative route."
    else if 2 ≤ countSev assessments Severity.high then
      "⚠️ TRAVEL NOT RECOMMENDED - Hazardous weather in " ++
        String.intercalate ", "
          ((assessments.filter (fun c => decide (c.severity = Severity.high))).map
            (fun c => c.city)) ++
        ". Heavy rain, snow, or very strong winds expected. Consider delaying travel until conditions improve."
    else if countSev assessments Severity.high = 1 then
      "⚠️ CAUTION ADVISED - Hazardous weather expected in " ++
        (((assessments.filter (fun c => decide (c.severity = Severity.high))).map
          (fun c => c.city)).headD "") ++
        ". Travel possible but drive carefully through this area. Monitor weather updates."
    else if (assessments.length : ℚ) / 2 ≤ (countSev assessments Severity.medium : ℚ) then
      "✅ TRAVEL SAFE WITH CAUTION - Some areas may have moderate rain, fog, or winds. Normal travel possible, just drive carefully and stay alert to changing conditions."
    else
      "✅ EXCELLENT CONDITIONS - Weather is favorable for travel along this route. Safe journey expected. Enjoy your trip!"

/-- Python `math.radians`. -/
noncomputable def radians (x : ℝ) : ℝ := x * (Real.pi / 180)

/-- The haversine intermediate value `a` of `calculate_distance`
(lines 62-64). -/
noncomputable def haversine_a (lat1 lon1 lat2 lon2 : ℝ) : ℝ :=
  Real.sin (radians (lat2 - lat1) / 2) ^ 2 +
    Real.cos (radians lat1) * Real.cos (radians lat2) *
      Real.sin (radians (lon2 - lon1) / 2) ^ 2

/-- Python `math.atan2` (two-argument arctangent with quadrant fixes). -/
noncomputable def atan2 (y x : ℝ) : ℝ :=
  if 0 < x then Real.arctan (y / x)
  else if x < 0 then
    (if 0 ≤ y then Real.arctan (y / x) + Real.pi else Real.arctan (y / x) - Real.pi)
  else
    (if 0 < y then Real.pi / 2 else if y < 0 then -(Real.pi / 2) else 0)

/-- `calculate_distance` (lines 46-69): haversine distance with Earth
radius 6371 km. -/
noncomputable def calculate_distance (lat1 lon1 lat2 lon2 : ℝ) : ℝ :=
  let a := haversine_a lat1 lon1 lat2 lon2
  let c := 2 * atan2 (Real.sqrt a) (Real.sqrt (1 - a))
  6371 * c

/-- Python `round(x, 2)`. -/
noncomputable def round2 (x : ℝ) : ℝ := (round (100 * x) : ℤ) / 100

/-- `is_point_near_route` (lines 72-111): near either endpoint, or small
detour `dist_to_start + dist_to_end - route_length`.  The two early
`return True` branches and the final comparison are collected into one
disjunction. -/
noncomputable def is_point_near_route
    (point_lat point_lon start_lat start_lon end_lat end_lon threshold_km : ℝ) : Prop :=
  calculate_distance point_lat point_lon start_lat start_lon < threshold_km ∨
  calculate_distance point_lat point_lon end_lat end_lon < threshold_km ∨
  calculate_distance point_lat point_lon start_lat start_lon +
      calculate_distance point_lat point_lon end_lat end_lon -
      calculate_distance start_lat start_lon end_lat end_lon < threshold_km

/-- Result dictionary of the external geocoder (`geocode_location`). -/
structure GeoResult where
  name : String
  lat : ℝ
  lon : ℝ
  state : String

/-- Result dictionary of `reverse_geocode` (lines 360-364). -/
structure CityInfo where
  name : String
  state : String
  country : String

/-- One waypoint dictionary from the directions response (lines 153-156);
the `lat`/`lng` values may be absent. -/
structure Waypoint where
  lat : Option ℝ
  lon : Option ℝ

/-- The external collaborators of the tool.  `geocode_location` and
`get_weather_data` are modelled from the spec: they are imported from
`custom_tools`, which is not part of the sources; per the spec the
geocoder returns a result or none and the weather provider returns an
observation whose `success` flag signals failure; either may raise.  The
two `_http` fields stand for the `requests.get` transport used by
`get_route_from_google_maps` and `reverse_geocode`; an `Except.error`
models a raised `requests` exception or a non-200 response. -/
structure Env where
  geocode_location : String → Except String (Option GeoResult)
  google_api_key : Option String
  google_directions_http : String → String → Except String (Option (List Waypoint))
  owm_api_key : Option String
  owm_reverse_http : ℝ → ℝ → Except String (Option CityInfo)
  get_weather_data : String → Except String Weather

/-- `get_route_from_google_maps` (lines 114-173): no API key means no
route; all transport errors are caught and become `none`. -/
def get_route_from_google_maps (env : Env) (start_city end_city : String) :
    Option (List Waypoint) :=
  match env.google_api_key with
  | none => none
  | some _ =>
    match env.google_directions_http start_city end_city with
    | Except.error _ => none
    | Except.ok r => r

/-- `reverse_geocode` (lines 337-368): no API key means `none`; all
transport errors are caught and become `none`. -/
def reverse_geocode (env : Env) (lat lon : ℝ) : Option CityInfo :=
  match env.owm_api_key with
  | none => none
  | some _ =>
    match env.owm_reverse_http lat lon with
    | Except.error _ => none
    | Except.ok r => r

/-- A city record accumulated by `find_cities_from_route_waypoints`
(lines 213-218), before the distance is attached. -/
structure FoundCity where
  name : String
  lat : ℝ
  lon : ℝ
  state : String

/-- `range(0, len(waypoints), sample_interval)`: the head, then every
`n`-th element. -/
def sampleEvery (l : List Waypoint) (n : ℕ) : List Waypoint :=
  match l with
  | [] => []
  | x :: xs => x :: sampleEvery (xs.drop (n - 1)) n
termination_by l.length
decreasing_by
  simp only [List.length_cons, List.length_drop]
  omega

/-- The body of the sampling loop of `find_cities_from_route_waypoints`
(lines 198-219).  State: accumulated cities and the `seen_cities` set of
lower-cased names.  A missing or zero coordinate is falsy in
`if lat and lon`, so the waypoint is skipped. -/
noncomputable def wpStep (env : Env) (start_city end_city : String)
    (st : List FoundCity × List String) (wp : Waypoint) :
    List FoundCity × List String :=
  match wp.lat, wp.lon with
  | some lat, some lon =>
    if lat = 0 ∨ lon = 0 then st
    else
      match reverse_geocode env lat lon with
      | some info =>
        if info.name = "" then st
        else if lowerStr info.name ∈ st.2 ∨
            lowerStr info.name = lowerStr start_city ∨
            lowerStr info.name = lowerStr end_city then st
        else (st.1 ++ [⟨info.name, lat, lon, info.state⟩], st.2 ++ [lowerStr info.name])
      | none => st
  | _, _ => st

/-- `find_cities_from_route_waypoints` (lines 176-221). -/
noncomputable def find_cities_from_route_waypoints (env : Env)
    (waypoints : List Waypoint) (start_city end_city : String)
    (sample_interval : ℕ) : List FoundCity :=
  ((sampleEvery waypoints sample_interval).foldl
    (wpStep env start_city end_city) ([], [])).1

/-- One record of the resolver output: a city with its distance from the
start (lines 288-294 / 213-218 plus line 269 / 315-321). -/
structure RouteCity where
  name : String
  lat : ℝ
  lon : ℝ
  state : String
  distance_from_start : ℝ
  is_start : Bool
  is_end : Bool

/-- One entry of the `MAJOR_CITIES_INDIA` table. -/
structure CityEntry where
  name : String
  lat : ℝ
  lon : ℝ
  state : String

/-- The curated `MAJOR_CITIES_INDIA` table (lines 20-43), in insertion
order. -/
noncomputable def MAJOR_CITIES_INDIA : List CityEntry :=
  [⟨"Chennai", 13.0827, 80.2707, "Tamil Nadu"⟩,
   ⟨"Trichy", 10.7905, 78.7047, "Tamil Nadu"⟩,
   ⟨"Tiruchirappalli", 10.7905, 78.7047, "Tamil Nadu"⟩,
   ⟨"Villupuram", 11.9401, 79.4861, "Tamil Nadu"⟩,
   ⟨"Perambalur", 11.2324, 78.8798, "Tamil Nadu"⟩,
   ⟨"Ariyalur", 11.1401, 79.0766, "Tamil Nadu"⟩,
   ⟨"Salem", 11.6643, 78.1460, "Tamil Nadu"⟩,
   ⟨"Coimbatore", 11.0168, 76.9558, "Tamil Nadu"⟩,
   ⟨"Madurai", 9.9252, 78.1198, "Tamil Nadu"⟩,
   ⟨"Bangalore", 12.9716, 77.5946, "Karnataka"⟩,
   ⟨"Bengaluru", 12.9716, 77.5946, "Karnataka"⟩,
   ⟨"Hosur", 12.7409, 77.8253, "Tamil Nadu"⟩,
   ⟨"Krishnagiri", 12.5186, 78.2137, "Tamil Nadu"⟩,
   ⟨"Dharmapuri", 12.1211, 78.1582, "Tamil Nadu"⟩,
   ⟨"Vellore", 12.9165, 79.1325, "Tamil Nadu"⟩,
   ⟨"Kanchipuram", 12.8342, 79.7036, "Tamil Nadu"⟩,
   ⟨"Hyderabad", 17.3850, 78.4867, "Telangana"⟩,
   ⟨"Mumbai", 19.0760, 72.8777, "Maharashtra"⟩,
   ⟨"Delhi", 28.7041, 77.1025, "Delhi"⟩,
   ⟨"Kolkata", 22.5726, 88.3639, "West Bengal"⟩,
   ⟨"Pune", 18.5204, 73.8567, "Maharashtra"⟩,
   ⟨"Ahmedabad", 23.0225, 72.5714, "Gujarat"⟩]

open Classical in
/-- The body of the curated-table loop (lines 276-294): skip start/end by
lower-cased name, keep cities near the route, attaching the rounded
distance from start. -/
noncomputable def curatedStep (start_city end_city : String) (A B : GeoResult)
    (threshold_km : ℝ) (acc : List RouteCity) (cd : CityEntry) : List RouteCity :=
  if lowerStr cd.name = lowerStr start_city ∨ lowerStr cd.name = lowerStr end_city then
    acc
  else if is_point_near_route cd.lat cd.lon A.lat A.lon B.lat B.lon threshold_km then
    acc ++ [⟨cd.name, cd.lat, cd.lon, cd.state,
      round2 (calculate_distance A.lat A.lon cd.lat cd.lon), false, false⟩]
  else acc

/-- The scan of the curated table in the fallback path (lines 276-294). -/
noncomputable def curatedScan (start_city end_city : String) (A B : GeoResult)
    (threshold_km : ℝ) : List RouteCity :=
  MAJOR_CITIES_INDIA.foldl (curatedStep start_city end_city A B threshold_km) []

/-- `num_points` of line 299: `min(5, max(2, int(total_distance / 100)))`
(the guard `total_distance > 100` makes `int` truncation equal floor). -/
noncomputable def numPoints (total_distance : ℝ) : ℕ :=
  min 5 (max 2 (Int.toNat ⌊total_distance / 100⌋))

/-- The interpolation points of lines 301-306: for `i = 1..n`, the
fraction `i / (n + 1)` along the straight segment from start to end. -/
noncomputable def interpPoints (A B : GeoResult) (n : ℕ) : List (ℝ × ℝ) :=
  (List.range n).map (fun i : ℕ =>
    let fraction := ((i : ℝ) + 1) / ((n : ℝ) + 1)
    (A.lat + (B.lat - A.lat) * fraction, A.lon + (B.lon - A.lon) * fraction))

/-- The body of the interpolation loop (lines 308-323): reverse-geocode
the point and append it unless its name is already present in the
accumulated list.  (The start/end names are *not* consulted here.) -/
noncomputable def interpStep (env : Env) (A : GeoResult)
    (acc : List RouteCity) (p : ℝ × ℝ) : List RouteCity :=
  match reverse_geocode env p.1 p.2 with
  | some info =>
    if acc.any (fun c => decide (lowerStr c.name = lowerStr info.name)) then acc
    else acc ++ [⟨info.name, p.1, p.2, info.state,
      round2 (calculate_distance A.lat A.lon p.1 p.2), false, false⟩]
  | none => acc

open Classical in
/-- The fallback resolution (lines 272-323): curated scan, then, when
fewer than 2 cities were found and the route is longer than 100 km, the
interpolation loop. -/
noncomputable def fallbackCities (env : Env) (start_city end_city : String)
    (A B : GeoResult) (threshold_km : ℝ) : List RouteCity :=
  let route_cities := curatedScan start_city end_city A B threshold_km
  let total_distance := calculate_distance A.lat A.lon B.lat B.lon
  if route_cities.length < 2 ∧ 100 < total_distance then
    (interpPoints A B (numPoints total_distance)).foldl (interpStep env A) route_cities
  else route_cities

open Classical in
/-- Sort of line 326: by `distance_from_start`, ascending. -/
noncomputable def sortByDistance (l : List RouteCity) : List RouteCity :=
  l.mergeSort (fun a b => decide (a.distance_from_start ≤ b.distance_from_start))

/-- The intermediate-city list of `find_cities_along_route` before the
final sort (lines 253-323): primary waypoint path when a non-empty route
was returned, fallback otherwise. -/
noncomputable def routeCitiesOf (env : Env) (start_city end_city : String)
    (threshold_km : ℝ) (A B : GeoResult) : List RouteCity :=
  match get_route_from_google_maps env start_city end_city with
  | some waypoints =>
    if 0 < waypoints.length then
      (find_cities_from_route_waypoints env waypoints start_city end_city 10).map
        (fun c => ⟨c.name, c.lat, c.lon, c.state,
          round2 (calculate_distance A.lat A.lon c.lat c.lon), false, false⟩)
    else fallbackCities env start_city end_city A B threshold_km
  | none => fallbackCities env start_city end_city A B threshold_km

/-- `find_cities_along_route` (lines 224-334).  A raised geocoder
exception propagates; a geocoder `None` returns the empty list
(line 247). -/
noncomputable def find_cities_along_route (env : Env)
    (start_city end_city : String) (threshold_km : ℝ) :
    Except String (List RouteCity) :=
  match env.geocode_location start_city with
  | Except.error msg => Except.error msg
  | Except.ok start_coords =>
    match env.geocode_location end_city with
    | Except.error msg => Except.error msg
    | Except.ok end_coords =>
      match start_coords, end_coords with
      | some A, some B =>
        Except.ok (sortByDistance (routeCitiesOf env start_city end_city threshold_km A B))
      | _, _ => Except.ok []

/-- The `all_cities` assembly of the orchestrator (lines 408-429): the
START record at distance 0, the intermediates, the END record at the
rounded total distance. -/
noncomputable def build_all_cities (A B : GeoResult) (total : ℝ)
    (inter : List RouteCity) : List RouteCity :=
  ⟨A.name, A.lat, A.lon, A.state, 0, true, false⟩ ::
    (inter ++ [⟨B.name, B.lat, B.lon, B.state, round2 total, false, true⟩])

/-- The full resolved city sequence of one analysis run: geocode the two
names (lines 390-397), resolve the intermediates, assemble
`all_cities`. -/
noncomputable def resolved_route (env : Env) (start_city end_city : String) :
    Except String (List RouteCity) :=
  match env.geocode_location start_city with
  | Except.error msg => Except.error msg
  | Except.ok start_coords =>
    match env.geocode_location end_city with
    | Except.error msg => Except.error msg
    | Except.ok end_coords =>
      match start_coords, end_coords with
      | some A, some B =>
        match find_cities_along_route env start_city end_city 50 with
        | Except.error msg => Except.error msg
        | Except.ok inter =>
          Except.ok (build_all_cities A B
            (calculate_distance A.lat A.lon B.lat B.lon) inter)
      | _, _ => Except.error "Could not geocode start or end city"

/-- The per-city body of the weather loop (lines 436-470): a raised
weather fetch is caught and the city skipped; an unsuccessful observation
is skipped; otherwise the city record, the severe-condition entry and the
two warning entries are appended.  State:
`(city_weather, weather_warnings, severe_conditions)`. -/
noncomputable def cityWeatherStep (env : Env)
    (st : List CityData × List String × List String) (city : RouteCity) :
    List CityData × List String × List String :=
  match env.get_weather_data city.name with
  | Except.error _ => st
  | Except.ok weather =>
    if weather.success then
      let severity := assess_weather_severity weather
      let severe :=
        if severity = Severity.high ∨ severity = Severity.critical then
          st.2.2 ++ [city.name ++ ": " ++ weather.condition.getD "Unknown"]
        else st.2.2
      let warns1 :=
        if 40 < weather.wind_speed.getD 0 then
          st.2.1 ++ ["Strong winds in " ++ city.name ++ " (" ++
            toString (weather.wind_speed.getD 0) ++ " km/h)"]
        else st.2.1
      let warns2 :=
        if strContains (lowerStr (weather.condition.getD "")) "heavy rain" ∨
            strContains (lowerStr (weather.condition.getD "")) "thunderstorm" then
          warns1 ++ ["Heavy rain in " ++ city.name]
        else warns1
      (st.1 ++ [⟨city.name, city.state, city.distance_from_start, weather,
        severity, city.is_start, city.is_end⟩], warns2, severe)
    else st

/-- What one city contributes to `city_weather`, in isolation. -/
noncomputable def perCityData (env : Env) (city : RouteCity) : Option CityData :=
  match env.get_weather_data city.name with
  | Except.error _ => none
  | Except.ok weather =>
    if weather.success then
      some ⟨city.name, city.state, city.distance_from_start, weather,
        assess_weather_severity weather, city.is_start, city.is_end⟩
    else none

/-- What one city contributes to `weather_warnings`, in isolation. -/
noncomputable def perCityWarnings (env : Env) (city : RouteCity) : List String :=
  match env.get_weather_data city.name with
  | Except.error _ => []
  | Except.ok weather =>
    if weather.success then
      (if 40 < weather.wind_speed.getD 0 then
        ["Strong winds in " ++ city.name ++ " (" ++
          toString (weather.wind_speed.getD 0) ++ " km/h)"]
      else []) ++
      (if strContains (lowerStr (weather.condition.getD "")) "heavy rain" ∨
          strContains (lowerStr (weather.condition.getD "")) "thunderstorm" then
        ["Heavy rain in " ++ city.name]
      else [])
    else []

/-- What one city contributes to `severe_conditions`, in isolation. -/
noncomputable def perCitySevere (env : Env) (city : RouteCity) : List String :=
  match env.get_weather_data city.name with
  | Except.error _ => []
  | Except.ok weather =>
    if weather.success then
      if assess_weather_severity weather = Severity.high ∨
          assess_weather_severity weather = Severity.critical then
        [city.name ++ ": " ++ weather.condition.getD "Unknown"]
      else []
    else []

/-- The `route` sub-dictionary of a successful analysis (lines 477-482).
The `datetime.now()` timestamp of line 487 is an external clock and is
omitted. -/
structure RouteInfo where
  start_name : String
  end_name : String
  total_distance_km : ℝ
  cities_count : ℕ

/-- The two result shapes of `get_route_weather_analysis`: the
`success: True` dictionary (lines 475-488) and the `success: False`
dictionary (lines 393-397 and 492-495). -/
inductive RouteResp where
  | success (route : RouteInfo) (cities : List CityData)
      (weather_warnings : List String) (severe_conditions : List String)
      (recommendation : String)
  | failure (error : String)

/-- The body of the `try` block of `get_route_weather_analysis`
(lines 388-488); a raised exception surfaces as `Except.error`. -/
noncomputable def analysisBody (env : Env) (start_city end_city : String) :
    Except String RouteResp :=
  match env.geocode_location start_city with
  | Except.error msg => Except.error msg
  | Except.ok start_coords =>
    match env.geocode_location end_city with
    | Except.error msg => Except.error msg
    | Except.ok end_coords =>
      match start_coords, end_coords with
      | some A, some B =>
        match find_cities_along_route env start_city end_city 50 with
        | Except.error msg => Except.error msg
        | Except.ok inter =>
          let total := calculate_distance A.lat A.lon B.lat B.lon
          let all := build_all_cities A B total inter
          let st := all.foldl (cityWeatherStep env) ([], [], [])
          Except.ok (RouteResp.success
            ⟨start_city, end_city, round2 total, all.length⟩
            st.1 st.2.1 st.2.2
            (generate_route_recommendation st.1 st.2.1 st.2.2))
      | _, _ => Except.ok (RouteResp.failure "Could not geocode start or end city")

/-- `get_route_weather_analysis` (lines 371-495): the surrounding
`try/except` turns any raised exception into the failure dictionary. -/
noncomputable def get_route_weather_analysis (env : Env)
    (start_city end_city : String) : RouteResp :=
  match analysisBody env start_city end_city with
  | Except.ok r => r
  | Except.error e => RouteResp.failure e

/-- The city list of a resolver result, empty on a raised exception.
Used to state concrete refutations. -/
def citiesOf (x : Except String (List RouteCity)) : List RouteCity :=
  match x with
  | Except.ok l => l
  | Except.error _ => []

/-- The `distance_from_start` column of a resolver result. -/
noncomputable def routeDists (x : Except String (List RouteCity)) : List ℝ :=
  (citiesOf x).map (fun c => c.distance_from_start)

/-- Environment of the primary-path refutation run: both endpoints
geocode to latitude 0 / longitude 50, the directions provider returns a
single waypoint at latitude 11 on the same meridian, reverse geocoding
names it "Midville", the weather provider is offline. -/
noncomputable def envPrimary : Env :=
  ⟨fun n => if n = "A" then Except.ok (some ⟨"A", 0, 50, ""⟩)
    else if n = "B" then Except.ok (some ⟨"B", 0, 50, ""⟩)
    else Except.ok none,
   some "key",
   fun _ _ => Except.ok (some [⟨some 11, some 50⟩]),
   some "key",
   fun _ _ => Except.ok (some ⟨"Midville", "", ""⟩),
   fun _ => Except.error "offline"⟩

/-- Environment of the interpolation-path refutation run for the
duplicate-name claim: start at (0, 50), end at (10, 50), no directions
API key (fallback), reverse geocoding always answers with the start's
own name "A". -/
noncomputable def envInterpA : Env :=
  ⟨fun n => if n = "A" then Except.ok (some ⟨"A", 0, 50, ""⟩)
    else if n = "B" then Except.ok (some ⟨"B", 10, 50, ""⟩)
    else Except.ok none,
   none,
   fun _ _ => Except.ok none,
   some "key",
   fun _ _ => Except.ok (some ⟨"A", "", ""⟩),
   fun _ => Except.error "offline"⟩

/-- Environment of the interpolation-count refutation run: start at
(0, 50), end at (1.5, 50) (total distance about 167 km), no directions
API key, reverse geocoding names points below latitude 0.75 "Pone" and
the rest "Ptwo". -/
noncomputable def envInterpCount : Env :=
  ⟨fun n => if n = "A" then Except.ok (some ⟨"A", 0, 50, ""⟩)
    else if n = "B" then Except.ok (some ⟨"B", 1.5, 50, ""⟩)
    else Except.ok none,
   none,
   fun _ _ => Except.ok none,
   some "key",
   fun la _ => Except.ok (some (if la < 0.75 then ⟨"Pone", "", ""⟩ else ⟨"Ptwo", "", ""⟩)),
   fun _ => Except.error "offline"⟩

/-- Environment whose geocoder knows no city at all. -/
noncomputable def envNoGeo : Env :=
  ⟨fun _ => Except.ok none,
   none,
   fun _ _ => Except.ok none,
   none,
   fun _ _ => Except.ok none,
   fun _ => Except.error "offline"⟩

/-! ## Theorems -/

theorem find?_eq_head?_filter {α : Type} (p : α → Bool) (l : List α) :
    l.find? p = (l.filter p).head? := by
  induction l with
  | nil => rfl
  | cons a t ih =>
    rw [List.find?_cons, List.filter_cons]
    cases h : p a
    · simpa [h] using ih
    · simp [h]

theorem countSev_pos_iff (cw : List CityData) (s : Severity) :
    0 < countSev cw s ↔ cw.any (fun c => decide (c.severity = s)) = true := by
  simp [countSev, List.length_pos, List.filter_eq_nil_iff, List.any_eq_true]

/-- C1: the severity classifier is total, evaluates tiers in strict
CRITICAL, HIGH, MEDIUM, LOW order with first match winning, the three
checks inside a tier being OR'd with exactly the specified keyword lists
and thresholds; in particular a CRITICAL-keyword observation with mild
temperature and wind still classifies CRITICAL. -/
theorem C1_classifier_total_and_ordered :
    (∀ w : Weather, assess_weather_severity w = classifierSpec w) ∧
    assess_weather_severity ⟨some "Thunderstorm", some 10, some 25, true⟩ =
      Severity.critical := by
  constructor
  · intro w
    simp only [assess_weather_severity, classifierSpec]
    split_ifs <;> tauto
  · decide

/-- C9: absent observation fields default to condition "", wind 0 and
temperature 25, and an observation with none of the fields present
classifies LOW. -/
theorem C9_classifier_defaults :
    (∀ (ws t : Option ℚ) (b : Bool),
      assess_weather_severity ⟨none, ws, t, b⟩ =
        assess_weather_severity ⟨some "", ws, t, b⟩) ∧
    (∀ (c : Option String) (t : Option ℚ) (b : Bool),
      assess_weather_severity ⟨c, none, t, b⟩ =
        assess_weather_severity ⟨c, some 0, t, b⟩) ∧
    (∀ (c : Option String) (ws : Option ℚ) (b : Bool),
      assess_weather_severity ⟨c, ws, none, b⟩ =
        assess_weather_severity ⟨c, ws, some 25, b⟩) ∧
    (∀ b : Bool, assess_weather_severity ⟨none, none, none, b⟩ = Severity.low) :=
  ⟨fun _ _ _ => rfl, fun _ _ _ => rfl, fun _ _ _ => rfl, fun _ => rfl⟩

/-- C2: the recommendation text is selected by the claimed priority order
over the severity counts (any CRITICAL; two or more HIGH; exactly one
HIGH; MEDIUM at least half; otherwise excellent), with the fixed
no-data message on an empty assessment list. -/
theorem C2_recommendation_priority :
    ∀ (cw : List CityData) (warnings severe : List String),
      generate_route_recommendation cw warnings severe = recommendationSpec cw := by
  intro cw warnings severe
  match cw with
  | [] => rfl
  | c :: rest =>
    simp only [generate_route_recommendation, recommendationSpec]
    by_cases hcrit :
        (c :: rest).any (fun x => decide (x.severity = Severity.critical)) = true
    · rw [if_pos ((countSev_pos_iff _ _).mpr hcrit), if_pos hcrit]
    · rw [if_neg (fun h => hcrit ((countSev_pos_iff _ _).mp h)), if_neg hcrit]
      by_cases hh2 : 2 ≤ countSev (c :: rest) Severity.high
      · rw [if_pos hh2, if_pos hh2]
      · rw [if_neg hh2, if_neg hh2]
        by_cases hh1 : countSev (c :: rest) Severity.high = 1
        · rw [if_pos hh1, if_pos hh1]
          obtain ⟨x, hx⟩ := List.length_eq_one.mp hh1
          rw [find?_eq_head?_filter, hx]
          simp
        · rw [if_neg hh1, if_neg hh1]
          have hmed : ((c :: rest).length : ℚ) * (1 / 2) ≤
              (countSev (c :: rest) Severity.medium : ℚ) ↔
              ((c :: rest).length : ℚ) / 2 ≤
              (countSev (c :: rest) Severity.medium : ℚ) := by
            rw [mul_one_div]
          by_cases hm : ((c :: rest).length : ℚ) * (1 / 2) ≤
              (countSev (c :: rest) Severity.medium : ℚ)
          · rw [if_pos hm, if_pos (hmed.mp hm)]
          · rw [if_neg hm, if_neg (fun h => hm (hmed.mpr h))]

/-! ### Geometry lemmas -/

theorem haversine_a_comm (lat1 lon1 lat2 lon2 : ℝ) :
    haversine_a lat1 lon1 lat2 lon2 = haversine_a lat2 lon2 lat1 lon1 := by
  unfold haversine_a radians
  have h1 : Real.sin ((lat1 - lat2) * (Real.pi / 180) / 2) =
      -Real.sin ((lat2 - lat1) * (Real.pi / 180) / 2) := by
    rw [show (lat1 - lat2) * (Real.pi / 180) / 2 =
      -((lat2 - lat1) * (Real.pi / 180) / 2) by ring, Real.sin_neg]
  have h2 : Real.sin ((lon1 - lon2) * (Real.pi / 180) / 2) =
      -Real.sin ((lon2 - lon1) * (Real.pi / 180) / 2) := by
    rw [show (lon1 - lon2) * (Real.pi / 180) / 2 =
      -((lon2 - lon1) * (Real.pi / 180) / 2) by ring, Real.sin_neg]
  rw [h1, h2]
  ring

theorem haversine_a_self (lat lon : ℝ) : haversine_a lat lon lat lon = 0 := by
  simp [haversine_a, radians, sub_self]

theorem calculate_distance_self (lat lon : ℝ) :
    calculate_distance lat lon lat lon = 0 := by
  unfold calculate_distance
  rw [haversine_a_self]
  norm_num [atan2, Real.sqrt_one, Real.arctan_zero]

theorem calculate_distance_comm (lat1 lon1 lat2 lon2 : ℝ) :
    calculate_distance lat1 lon1 lat2 lon2 = calculate_distance lat2 lon2 lat1 lon1 := by
  unfold calculate_distance
  rw [haversine_a_comm]

theorem haversine_a_le_one (lat1 lon1 lat2 lon2 : ℝ) :
    haversine_a lat1 lon1 lat2 lon2 ≤ 1 := by
  unfold haversine_a
  set A := radians lat1 with hA
  set B := radians lat2 with hB
  set T := radians (lat2 - lat1) / 2 with hT
  set L := radians (lon2 - lon1) / 2 with hL
  have h2T : 2 * T = B - A := by rw [hT, hA, hB]; unfold radians; ring
  have h1 : Real.cos (B - A) = 1 - 2 * Real.sin T ^ 2 := by
    rw [← h2T, Real.cos_two_mul, Real.sin_sq]
    ring
  have h2 : Real.cos (B + A) ≤ 1 := Real.cos_le_one _
  have h3 : Real.cos A * Real.cos B = (Real.cos (B - A) + Real.cos (B + A)) / 2 := by
    rw [Real.cos_sub, Real.cos_add]
    ring
  have hc1 : Real.cos A * Real.cos B ≤ 1 - Real.sin T ^ 2 := by
    rw [h3, h1]
    linarith
  have e1 : 0 ≤ (1 - Real.sin L ^ 2) * (1 - Real.sin T ^ 2) :=
    mul_nonneg (by linarith [Real.sin_sq_le_one L]) (by linarith [Real.sin_sq_le_one T])
  have e2 : 0 ≤ Real.sin L ^ 2 *
      (1 - Real.sin T ^ 2 - Real.cos A * Real.cos B) :=
    mul_nonneg (sq_nonneg _) (by linarith)
  nlinarith [e1, e2]

theorem radians_mem_Icc {lat : ℝ} (h1 : -90 ≤ lat) (h2 : lat ≤ 90) :
    -(Real.pi / 2) ≤ radians lat ∧ radians lat ≤ Real.pi / 2 := by
  unfold radians
  have hp : 0 ≤ Real.pi / 180 := by positivity
  constructor
  · have := mul_le_mul_of_nonneg_right h1 hp
    linarith
  · have := mul_le_mul_of_nonneg_right h2 hp
    linarith

theorem cos_radians_nonneg {lat : ℝ} (h1 : -90 ≤ lat) (h2 : lat ≤ 90) :
    0 ≤ Real.cos (radians lat) := by
  obtain ⟨hl, hr⟩ := radians_mem_Icc h1 h2
  exact Real.cos_nonneg_of_mem_Icc ⟨hl, hr⟩

theorem haversine_a_nonneg {lat1 lat2 : ℝ} (lon1 lon2 : ℝ)
    (h1 : -90 ≤ lat1) (h2 : lat1 ≤ 90) (h3 : -90 ≤ lat2) (h4 : lat2 ≤ 90) :
    0 ≤ haversine_a lat1 lon1 lat2 lon2 := by
  unfold haversine_a
  have c1 := cos_radians_nonneg h1 h2
  have c2 := cos_radians_nonneg h3 h4
  have := sq_nonneg (Real.sin (radians (lat2 - lat1) / 2))
  have := sq_nonneg (Real.sin (radians (lon2 - lon1) / 2))
  positivity

theorem atan2_sqrt_eq_arcsin {a : ℝ} (h0 : 0 ≤ a) (h1 : a ≤ 1) :
    atan2 (Real.sqrt a) (Real.sqrt (1 - a)) = Real.arcsin (Real.sqrt a) := by
  rcases lt_or_eq_of_le h1 with hlt | heq
  · have hx : 0 < Real.sqrt (1 - a) := Real.sqrt_pos.mpr (by linarith)
    rw [atan2, if_pos hx]
    have hsa1 : Real.sqrt a < 1 := by
      have := Real.sqrt_lt_sqrt h0 hlt
      rwa [Real.sqrt_one] at this
    have hθ0 : 0 ≤ Real.arcsin (Real.sqrt a) :=
      Real.arcsin_nonneg.mpr (Real.sqrt_nonneg a)
    have hθ1 : Real.arcsin (Real.sqrt a) < Real.pi / 2 :=
      Real.arcsin_lt_pi_div_two.mpr hsa1
    have hsin : Real.sin (Real.arcsin (Real.sqrt a)) = Real.sqrt a :=
      Real.sin_arcsin (by linarith [Real.sqrt_nonneg a]) (le_of_lt hsa1)
    have hcos : Real.cos (Real.arcsin (Real.sqrt a)) = Real.sqrt (1 - a) := by
      rw [Real.cos_arcsin, Real.sq_sqrt h0]
    rw [show Real.sqrt a / Real.sqrt (1 - a) = Real.tan (Real.arcsin (Real.sqrt a)) by
      rw [Real.tan_eq_sin_div_cos, hsin, hcos]]
    exact Real.arctan_tan (by linarith [Real.pi_pos]) hθ1
  · subst heq
    norm_num [atan2, Real.sqrt_one, Real.sqrt_zero, Real.arcsin_one]

theorem calculate_distance_eq_arcsin {lat1 lon1 lat2 lon2 : ℝ}
    (h0 : 0 ≤ haversine_a lat1 lon1 lat2 lon2)
    (h1 : haversine_a lat1 lon1 lat2 lon2 ≤ 1) :
    calculate_distance lat1 lon1 lat2 lon2 =
      6371 * (2 * Real.arcsin (Real.sqrt (haversine_a lat1 lon1 lat2 lon2))) := by
  simp only [calculate_distance]
  rw [atan2_sqrt_eq_arcsin h0 h1]

theorem atan2_nonneg {y x : ℝ} (hy : 0 ≤ y) (hx : 0 ≤ x) : 0 ≤ atan2 y x := by
  unfold atan2
  split_ifs with h1 h2 h3 h4 h5
  · have h0 : (0:ℝ) ≤ y / x := div_nonneg hy hx
    have := Real.arctan_strictMono.monotone h0
    rwa [Real.arctan_zero] at this
  all_goals first
    | linarith
    | exact le_of_lt (half_pos Real.pi_pos)
    | exact le_refl 0

theorem calculate_distance_nonneg (lat1 lon1 lat2 lon2 : ℝ) :
    0 ≤ calculate_distance lat1 lon1 lat2 lon2 := by
  unfold calculate_distance
  have := atan2_nonneg (Real.sqrt_nonneg (haversine_a lat1 lon1 lat2 lon2))
    (Real.sqrt_nonneg (1 - haversine_a lat1 lon1 lat2 lon2))
  positivity

theorem le_arcsin_self {t : ℝ} (h0 : 0 ≤ t) (h1 : t ≤ 1) : t ≤ Real.arcsin t := by
  have hs : Real.sin (Real.arcsin t) = t := Real.sin_arcsin (by linarith) h1
  have hnn : 0 ≤ Real.arcsin t := Real.arcsin_nonneg.mpr h0
  rcases lt_or_eq_of_le hnn with h | h
  · have := Real.sin_lt h
    rw [hs] at this
    linarith
  · have ht : t = 0 := by rw [← hs, ← h, Real.sin_zero]
    rw [ht]
    simp [Real.arcsin_zero]

theorem calculate_distance_ge_sqrt {lat1 lon1 lat2 lon2 m : ℝ}
    (hm0 : 0 ≤ m) (ha : m ≤ haversine_a lat1 lon1 lat2 lon2)
    (h1 : haversine_a lat1 lon1 lat2 lon2 ≤ 1) :
    2 * 6371 * Real.sqrt m ≤ calculate_distance lat1 lon1 lat2 lon2 := by
  rw [calculate_distance_eq_arcsin (le_trans hm0 ha) h1]
  have hsm : Real.sqrt m ≤ Real.sqrt (haversine_a lat1 lon1 lat2 lon2) :=
    Real.sqrt_le_sqrt ha
  have hone : Real.sqrt (haversine_a lat1 lon1 lat2 lon2) ≤ 1 := by
    have := Real.sqrt_le_sqrt h1
    rwa [Real.sqrt_one] at this
  have harc := le_arcsin_self (Real.sqrt_nonneg (haversine_a lat1 lon1 lat2 lon2)) hone
  linarith

theorem dist_meridian (lon φ : ℝ) (h0 : 0 ≤ φ) (h1 : φ ≤ 180) :
    calculate_distance 0 lon φ lon = 6371 * radians φ := by
  have hpi := Real.pi_pos
  have hrad0 : 0 ≤ radians φ := by
    unfold radians
    positivity
  have hrad1 : radians φ ≤ Real.pi := by
    unfold radians
    have := mul_le_mul_of_nonneg_right h1 (by positivity : (0:ℝ) ≤ Real.pi / 180)
    linarith
  have ha : haversine_a 0 lon φ lon = Real.sin (radians φ / 2) ^ 2 := by
    unfold haversine_a
    rw [sub_self, sub_zero]
    simp [radians, Real.sin_zero]
  have hsin_nn : 0 ≤ Real.sin (radians φ / 2) :=
    Real.sin_nonneg_of_nonneg_of_le_pi (by linarith) (by linarith)
  have h0a : 0 ≤ haversine_a 0 lon φ lon := by rw [ha]; positivity
  have h1a : haversine_a 0 lon φ lon ≤ 1 := by rw [ha]; exact Real.sin_sq_le_one _
  rw [calculate_distance_eq_arcsin h0a h1a, ha, Real.sqrt_sq hsin_nn,
    Real.arcsin_sin (by linarith) (by linarith)]
  ring

/-! ### Rounding lemmas -/

theorem round2_nonneg {x : ℝ} (h : 0 ≤ x) : 0 ≤ round2 x := by
  unfold round2
  have hz : (0:ℤ) ≤ round (100 * x) := by
    rw [round_eq]
    have : (0:ℤ) = ⌊(1:ℝ)/2⌋ := by norm_num
    rw [this]
    exact Int.floor_mono (by linarith)
  have : (0:ℝ) ≤ (round (100 * x) : ℤ) := Int.cast_nonneg.mpr hz
  linarith

theorem round2_gt (x : ℝ) : x - 1 / 200 < round2 x := by
  unfold round2
  rw [round_eq]
  have h := Int.lt_floor_add_one (100 * x + 1 / 2)
  have h2 : (100 : ℝ) * x - 1 / 2 < (⌊100 * x + 1 / 2⌋ : ℤ) := by
    push_cast at h ⊢
    linarith
  linarith

theorem round2_le (x : ℝ) : round2 x ≤ x + 1 / 200 := by
  unfold round2
  rw [round_eq]
  have h := Int.floor_le (100 * x + 1 / 2)
  linarith

theorem round2_zero : round2 0 = 0 := by
  norm_num [round2]

/-- C8: the great-circle distance is symmetric and the self-distance is
zero. -/
theorem C8_distance_symmetric_and_self :
    (∀ lat1 lon1 lat2 lon2 : ℝ,
      calculate_distance lat1 lon1 lat2 lon2 = calculate_distance lat2 lon2 lat1 lon1) ∧
    (∀ lat lon : ℝ, calculate_distance lat lon lat lon = 0) :=
  ⟨calculate_distance_comm, calculate_distance_self⟩

/-- C7 refutation: with threshold 0 the proximity test is false even at a
point coincident with both endpoints, so it is not true "regardless of
the threshold". -/
theorem C7_counterexample_zero_threshold :
    ¬ is_point_near_route 0 0 0 0 0 0 0 := by
  unfold is_point_near_route
  rw [calculate_distance_self]
  simp

/-- C7 amended: for every positive threshold, a point coincident with the
start or with the end is near the route. -/
theorem C7_amended_endpoint_near :
    ∀ plat plon slat slon elat elon threshold : ℝ, 0 < threshold →
      (plat = slat ∧ plon = slon) ∨ (plat = elat ∧ plon = elon) →
      is_point_near_route plat plon slat slon elat elon threshold := by
  rintro plat plon slat slon elat elon thr hthr (⟨h1, h2⟩ | ⟨h1, h2⟩)
  · subst h1
    subst h2
    left
    rw [calculate_distance_self]
    exact hthr
  · subst h1
    subst h2
    right
    left
    rw [calculate_distance_self]
    exact hthr

theorem C7_amended_endpoint_near_witness :
    is_point_near_route 0 0 0 0 1 1 1 :=
  C7_amended_endpoint_near 0 0 0 0 1 1 1 (by norm_num) (Or.inl ⟨rfl, rfl⟩)

/-! ### Resolver invariants -/

theorem wpStep_mem {env : Env} {s e : String}
    {st : List FoundCity × List String} {w : Waypoint} {c : FoundCity}
    (hc : c ∈ (wpStep env s e st w).1) :
    c ∈ st.1 ∨ (lowerStr c.name ≠ lowerStr s ∧ lowerStr c.name ≠ lowerStr e) := by
  unfold wpStep at hc
  split at hc
  · split at hc
    · exact Or.inl hc
    · split at hc
      · split at hc
        · exact Or.inl hc
        · split at hc
          · exact Or.inl hc
          · rename_i hguard
            rcases List.mem_append.mp hc with h1 | h1
            · exact Or.inl h1
            · right
              simp only [List.mem_singleton] at h1
              subst h1
              push_neg at hguard
              exact ⟨hguard.2.1, hguard.2.2⟩
      · exact Or.inl hc
  · exact Or.inl hc

theorem mem_foldl_wpStep {env : Env} {s e : String} :
    ∀ (l : List Waypoint) (st : List FoundCity × List String) (c : FoundCity),
      c ∈ (l.foldl (wpStep env s e) st).1 →
      c ∈ st.1 ∨ (lowerStr c.name ≠ lowerStr s ∧ lowerStr c.name ≠ lowerStr e) := by
  intro l
  induction l with
  | nil => exact fun st c hc => Or.inl hc
  | cons w t ih =>
    intro st c hc
    rcases ih _ c hc with h | h
    · exact wpStep_mem h
    · exact Or.inr h

theorem mem_find_cities_from_route_waypoints {env : Env} {wps : List Waypoint}
    {s e : String} {n : ℕ} {c : FoundCity}
    (hc : c ∈ find_cities_from_route_waypoints env wps s e n) :
    lowerStr c.name ≠ lowerStr s ∧ lowerStr c.name ≠ lowerStr e := by
  unfold find_cities_from_route_waypoints at hc
  rcases mem_foldl_wpStep _ _ _ hc with h | h
  · simp at h
  · exact h

theorem mem_curatedScan {s e : String} {A B : GeoResult} {thr : ℝ} {c : RouteCity}
    (hc : c ∈ curatedScan s e A B thr) :
    (lowerStr c.name ≠ lowerStr s ∧ lowerStr c.name ≠ lowerStr e) ∧
      0 ≤ c.distance_from_start := by
  unfold curatedScan at hc
  have key : ∀ (l : List CityEntry) (acc : List RouteCity),
      (∀ x ∈ acc, (lowerStr x.name ≠ lowerStr s ∧ lowerStr x.name ≠ lowerStr e) ∧
        0 ≤ x.distance_from_start) →
      ∀ x ∈ l.foldl (curatedStep s e A B thr) acc,
        (lowerStr x.name ≠ lowerStr s ∧ lowerStr x.name ≠ lowerStr e) ∧
          0 ≤ x.distance_from_start := by
    intro l
    induction l with
    | nil => exact fun acc hacc => hacc
    | cons cd t ih =>
      intro acc hacc
      apply ih
      intro x hx
      unfold curatedStep at hx
      split at hx
      · exact hacc x hx
      · split at hx
        · rename_i hguard _
          rcases List.mem_append.mp hx with h1 | h1
          · exact hacc x h1
          · simp only [List.mem_singleton] at h1
            subst h1
            push_neg at hguard
            exact ⟨⟨hguard.1, hguard.2⟩,
              round2_nonneg (calculate_distance_nonneg _ _ _ _)⟩
        · exact hacc x hx
  exact key MAJOR_CITIES_INDIA [] (by simp) c hc

theorem mem_interpFold_nonneg {env : Env} {A : GeoResult} :
    ∀ (pts : List (ℝ × ℝ)) (acc : List RouteCity),
      (∀ x ∈ acc, 0 ≤ x.distance_from_start) →
      ∀ x ∈ pts.foldl (interpStep env A) acc, 0 ≤ x.distance_from_start := by
  intro pts
  induction pts with
  | nil => exact fun acc hacc => hacc
  | cons p t ih =>
    intro acc hacc
    apply ih
    intro x hx
    unfold interpStep at hx
    split at hx
    · split at hx
      · exact hacc x hx
      · rcases List.mem_append.mp hx with h1 | h1
        · exact hacc x h1
        · simp only [List.mem_singleton] at h1
          subst h1
          exact round2_nonneg (calculate_distance_nonneg _ _ _ _)
    · exact hacc x hx

theorem mem_fallbackCities_nonneg {env : Env} {s e : String} {A B : GeoResult}
    {thr : ℝ} {c : RouteCity} (hc : c ∈ fallbackCities env s e A B thr) :
    0 ≤ c.distance_from_start := by
  simp only [fallbackCities] at hc
  split at hc
  · exact mem_interpFold_nonneg _ _
      (fun x hx => (mem_curatedScan hx).2) c hc
  · exact (mem_curatedScan hc).2

theorem mem_routeCitiesOf_nonneg {env : Env} {s e : String} {thr : ℝ}
    {A B : GeoResult} {c : RouteCity} (hc : c ∈ routeCitiesOf env s e thr A B) :
    0 ≤ c.distance_from_start := by
  unfold routeCitiesOf at hc
  split at hc
  · split at hc
    · obtain ⟨x, _, rfl⟩ := List.mem_map.mp hc
      exact round2_nonneg (calculate_distance_nonneg _ _ _ _)
    · exact mem_fallbackCities_nonneg hc
  · exact mem_fallbackCities_nonneg hc

theorem sortByDistance_pairwise (l : List RouteCity) :
    List.Pairwise (fun a b => a.distance_from_start ≤ b.distance_from_start)
      (sortByDistance l) := by
  unfold sortByDistance
  refine (List.sorted_mergeSort ?_ ?_ l).imp ?_
  · intro a b c hab hbc
    simp only [decide_eq_true_eq] at *
    exact le_trans hab hbc
  · intro a b
    simp only [Bool.or_eq_true, decide_eq_true_eq]
    exact le_total _ _
  · intro a b hab
    simpa using hab

theorem mem_sortByDistance {l : List RouteCity} {c : RouteCity} :
    c ∈ sortByDistance l ↔ c ∈ l := by
  unfold sortByDistance
  exact List.mem_mergeSort

theorem find_cities_ok_cases {env : Env} {s e : String} {thr : ℝ}
    {inter : List RouteCity}
    (h : find_cities_along_route env s e thr = Except.ok inter) :
    inter = [] ∨ ∃ A B : GeoResult,
      env.geocode_location s = Except.ok (some A) ∧
      env.geocode_location e = Except.ok (some B) ∧
      inter = sortByDistance (routeCitiesOf env s e thr A B) := by
  unfold find_cities_along_route at h
  split at h
  · exact absurd h (by simp)
  · rename_i sc hsc
    split at h
    · exact absurd h (by simp)
    · rename_i ec hec
      split at h
      · rename_i A B
        right
        refine ⟨A, B, by rw [hsc], by rw [hec], ?_⟩
        injection h with h
        exact h.symm
      · left
        injection h with h
        exact h.symm

/-- C10: a sampled waypoint whose latitude or longitude is missing or
exactly 0 is skipped entirely by the waypoint loop: the loop state is
unchanged and the result does not depend on the reverse-geocoding
collaborator at all. -/
theorem C10_zero_coordinate_waypoints_skipped :
    ∀ (env env2 : Env) (start_city end_city : String)
      (st : List FoundCity × List String) (wp : Waypoint),
      wp.lat = none ∨ wp.lat = some 0 ∨ wp.lon = none ∨ wp.lon = some 0 →
      wpStep env start_city end_city st wp = st ∧
      wpStep env start_city end_city st wp = wpStep env2 start_city end_city st wp := by
  intro env env2 s e st wp h
  have hstep : ∀ envx : Env, wpStep envx s e st wp = st := by
    intro envx
    unfold wpStep
    rcases hlat : wp.lat with _ | la <;> rcases hlon : wp.lon with _ | lo <;>
      simp_all
  exact ⟨hstep env, (hstep env).trans (hstep env2).symm⟩

theorem C10_zero_coordinate_waypoints_skipped_witness :
    wpStep envNoGeo "A" "B" ([], []) ⟨some 0, some 3⟩ = ([], []) :=
  (C10_zero_coordinate_waypoints_skipped envNoGeo envNoGeo "A" "B" ([], [])
    ⟨some 0, some 3⟩ (Or.inr (Or.inl rfl))).1

/-- C4 amended: on the primary waypoint-sampling path, and among the
cities contributed by the curated-table scan of the fallback, no city's
case-insensitive name equals the start or end name; the
interpolation-synthesized cities of the fallback are deduplicated only
against already-present names, so they may carry the start or end name
(see the counterexample). -/
theorem C4_amended_start_end_exclusion :
    (∀ (env : Env) (wps : List Waypoint) (s e : String) (n : ℕ) (c : FoundCity),
      c ∈ find_cities_from_route_waypoints env wps s e n →
      lowerStr c.name ≠ lowerStr s ∧ lowerStr c.name ≠ lowerStr e) ∧
    (∀ (s e : String) (A B : GeoResult) (thr : ℝ) (c : RouteCity),
      c ∈ curatedScan s e A B thr →
      lowerStr c.name ≠ lowerStr s ∧ lowerStr c.name ≠ lowerStr e) :=
  ⟨fun _ _ _ _ _ _ hc => mem_find_cities_from_route_waypoints hc,
   fun _ _ _ _ _ _ hc => (mem_curatedScan hc).1⟩

/-! ### Numeric bounds for the curated-table refutation runs

The refutation environments geocode the endpoints onto the meridian at
longitude 50 with latitudes in `[0, 10]`; every entry of
`MAJOR_CITIES_INDIA` has latitude in `[9, 29]` and longitude in
`[72, 89]`, hence is thousands of kilometres from that meridian segment
and never passes `is_point_near_route` at threshold 50. -/

theorem cos_radians_ge_city {lat : ℝ} (h1 : 9 ≤ lat) (h2 : lat ≤ 29) :
    (0.871 : ℝ) ≤ Real.cos (radians lat) := by
  have hπu : Real.pi < 3.141593 := Real.pi_lt_d6
  have hπl : 3.141592 < Real.pi := Real.pi_gt_d6
  unfold radians
  have hv0 : (0:ℝ) ≤ lat * (Real.pi / 180) := by
    have : (0:ℝ) ≤ lat := by linarith
    positivity
  have hv1 : lat * (Real.pi / 180) ≤ 0.5062 := by
    have h := mul_le_mul_of_nonneg_right h2 (by positivity : (0:ℝ) ≤ Real.pi / 180)
    nlinarith
  have hsq : (lat * (Real.pi / 180)) ^ 2 ≤ 0.5062 ^ 2 := by
    exact pow_le_pow_left hv0 hv1 2
  have hc : 1 - (lat * (Real.pi / 180)) ^ 2 / 2 ≤ Real.cos (lat * (Real.pi / 180)) :=
    Real.one_sub_sq_div_two_le_cos
  nlinarith

theorem cos_radians_ge_endpoint {lat : ℝ} (h1 : 0 ≤ lat) (h2 : lat ≤ 10) :
    (0.984 : ℝ) ≤ Real.cos (radians lat) := by
  have hπu : Real.pi < 3.141593 := Real.pi_lt_d6
  unfold radians
  have hv0 : (0:ℝ) ≤ lat * (Real.pi / 180) := by positivity
  have hv1 : lat * (Real.pi / 180) ≤ 0.1746 := by
    have h := mul_le_mul_of_nonneg_right h2 (by positivity : (0:ℝ) ≤ Real.pi / 180)
    nlinarith
  have hsq : (lat * (Real.pi / 180)) ^ 2 ≤ 0.1746 ^ 2 := by
    exact pow_le_pow_left hv0 hv1 2
  have hc : 1 - (lat * (Real.pi / 180)) ^ 2 / 2 ≤ Real.cos (lat * (Real.pi / 180)) :=
    Real.one_sub_sq_div_two_le_cos
  nlinarith

theorem sin_sq_dlon_ge {lon : ℝ} (h3 : 72 ≤ lon) (h4 : lon ≤ 89) :
    (0.033 : ℝ) ≤ Real.sin (radians (50 - lon) / 2) ^ 2 := by
  have hπu : Real.pi < 3.141593 := Real.pi_lt_d6
  have hπl : 3.141592 < Real.pi := Real.pi_gt_d6
  have hflip : Real.sin (radians (50 - lon) / 2) ^ 2 =
      Real.sin (radians (lon - 50) / 2) ^ 2 := by
    rw [show radians (50 - lon) / 2 = -(radians (lon - 50) / 2) by
      unfold radians; ring, Real.sin_neg]
    ring
  rw [hflip]
  have hu0 : (0.1919 : ℝ) ≤ radians (lon - 50) / 2 := by
    unfold radians
    nlinarith
  have hu1 : radians (lon - 50) / 2 ≤ 0.3404 := by
    unfold radians
    nlinarith
  have hcube : (radians (lon - 50) / 2) ^ 3 ≤ 0.3404 ^ 3 := by
    exact pow_le_pow_left (by linarith) hu1 3
  have hs := Real.sin_gt_sub_cube (by linarith : 0 < radians (lon - 50) / 2)
    (by linarith : radians (lon - 50) / 2 ≤ 1)
  have hsin : (0.182 : ℝ) ≤ Real.sin (radians (lon - 50) / 2) := by nlinarith
  nlinarith

theorem far_city_a_lower {clat clon plat : ℝ}
    (h1 : 9 ≤ clat) (h2 : clat ≤ 29) (h3 : 72 ≤ clon) (h4 : clon ≤ 89)
    (hp0 : 0 ≤ plat) (hp1 : plat ≤ 10) :
    (0.028 : ℝ) ≤ haversine_a clat clon plat 50 := by
  unfold haversine_a
  have hc1 := cos_radians_ge_city h1 h2
  have hc2 := cos_radians_ge_endpoint hp0 hp1
  have hs := sin_sq_dlon_ge h3 h4
  have hsq := sq_nonneg (Real.sin (radians (plat - clat) / 2))
  have hcc : (0.857 : ℝ) ≤ Real.cos (radians clat) * Real.cos (radians plat) := by
    nlinarith
  have hcc0 : (0:ℝ) ≤ Real.cos (radians clat) * Real.cos (radians plat) := by
    nlinarith
  have hprod : (0.857 : ℝ) * 0.033 ≤
      Real.cos (radians clat) * Real.cos (radians plat) *
        Real.sin (radians (50 - clon) / 2) ^ 2 :=
    mul_le_mul hcc hs (by norm_num) hcc0
  nlinarith [hsq, hprod]

theorem not_near_far_city {clat clon elat : ℝ}
    (h1 : 9 ≤ clat) (h2 : clat ≤ 29) (h3 : 72 ≤ clon) (h4 : clon ≤ 89)
    (he0 : 0 ≤ elat) (he1 : elat ≤ 10) :
    ¬ is_point_near_route clat clon 0 50 elat 50 50 := by
  have hπu : Real.pi < 3.141593 := Real.pi_lt_d6
  have ha1 := far_city_a_lower h1 h2 h3 h4 (le_refl 0) (by norm_num : (0:ℝ) ≤ 10)
  have ha2 := far_city_a_lower h1 h2 h3 h4 he0 he1
  have hle1 := haversine_a_le_one clat clon 0 50
  have hle2 := haversine_a_le_one clat clon elat 50
  have hd1 := calculate_distance_ge_sqrt (by norm_num : (0:ℝ) ≤ 0.028) ha1 hle1
  have hd2 := calculate_distance_ge_sqrt (by norm_num : (0:ℝ) ≤ 0.028) ha2 hle2
  have hsq : (0.167 : ℝ) ≤ Real.sqrt 0.028 :=
    (Real.le_sqrt (by norm_num) (by norm_num)).mpr (by norm_num)
  have hd1' : (2127 : ℝ) ≤ calculate_distance clat clon 0 50 := by nlinarith
  have hd2' : (2127 : ℝ) ≤ calculate_distance clat clon elat 50 := by nlinarith
  have hroute : calculate_distance 0 50 elat 50 = 6371 * radians elat :=
    dist_meridian 50 elat he0 (by linarith)
  have hroutele : calculate_distance 0 50 elat 50 ≤ 1112 := by
    rw [hroute]
    unfold radians
    nlinarith
  simp only [is_point_near_route, not_or, not_lt]
  exact ⟨by linarith, by linarith, by linarith⟩

theorem foldl_curatedStep_of_not_near {s e : String} {A B : GeoResult} {thr : ℝ} :
    ∀ (l : List CityEntry) (acc : List RouteCity),
      (∀ cd ∈ l, ¬ is_point_near_route cd.lat cd.lon A.lat A.lon B.lat B.lon thr) →
      l.foldl (curatedStep s e A B thr) acc = acc := by
  intro l
  induction l with
  | nil => intro acc _; rfl
  | cons cd t ih =>
    intro acc h
    have hstep : curatedStep s e A B thr acc cd = acc := by
      unfold curatedStep
      split_ifs with h1 h2
      · rfl
      · exact absurd h2 (h cd (List.mem_cons_self _ _))
      · rfl
    rw [List.foldl_cons, hstep]
    exact ih acc (fun x hx => h x (List.mem_cons_of_mem _ hx))

theorem curatedScan_empty {s e : String} {A B : GeoResult}
    (hA1 : A.lat = 0) (hA2 : A.lon = 50)
    (hB1 : 0 ≤ B.lat) (hB2 : B.lat ≤ 10) (hB3 : B.lon = 50) :
    curatedScan s e A B 50 = [] := by
  unfold curatedScan
  apply foldl_curatedStep_of_not_near
  intro cd hcd
  rw [hA1, hA2, hB3]
  fin_cases hcd <;>
    exact not_near_far_city (by norm_num) (by norm_num) (by norm_num) (by norm_num)
      hB1 hB2

theorem interpFold_stable {env : Env} {A : GeoResult} {info : CityInfo}
    (hrev : ∀ x y : ℝ, reverse_geocode env x y = some info) :
    ∀ (pts : List (ℝ × ℝ)) (acc : List RouteCity),
      acc.any (fun c => decide (lowerStr c.name = lowerStr info.name)) = true →
      pts.foldl (interpStep env A) acc = acc := by
  intro pts
  induction pts with
  | nil => intro acc _; rfl
  | cons p t ih =>
    intro acc hany
    have hstep : interpStep env A acc p = acc := by
      unfold interpStep
      rw [hrev]
      simp [hany]
    rw [List.foldl_cons, hstep]
    exact ih acc hany

theorem interpFold_const_name {env : Env} {A : GeoResult} {info : CityInfo}
    (hrev : ∀ x y : ℝ, reverse_geocode env x y = some info)
    (p : ℝ × ℝ) (t : List (ℝ × ℝ)) :
    (p :: t).foldl (interpStep env A) [] =
      [⟨info.name, p.1, p.2, info.state,
        round2 (calculate_distance A.lat A.lon p.1 p.2), false, false⟩] := by
  rw [List.foldl_cons]
  have hstep : interpStep env A [] p = [⟨info.name, p.1, p.2, info.state,
      round2 (calculate_distance A.lat A.lon p.1 p.2), false, false⟩] := by
    unfold interpStep
    rw [hrev]
    simp
  rw [hstep]
  exact interpFold_stable hrev t _ (by simp)

theorem interpPoints_length (A B : GeoResult) (n : ℕ) :
    (interpPoints A B n).length = n := by
  unfold interpPoints
  simp

/-- C4 refutation: in the fallback with reverse geocoding answering the
start's own name, the resolver's output contains a city whose
case-insensitive name equals the start name. -/
theorem C4_counterexample_interp_start_name :
    lowerStr "A" ∈ (citiesOf (find_cities_along_route envInterpA "A" "B" 50)).map
      (fun c => lowerStr c.name) := by
  have hfind : find_cities_along_route envInterpA "A" "B" 50 =
      Except.ok (sortByDistance (routeCitiesOf envInterpA "A" "B" 50
        ⟨"A", 0, 50, ""⟩ ⟨"B", 10, 50, ""⟩)) := rfl
  have hroute : routeCitiesOf envInterpA "A" "B" 50
      ⟨"A", 0, 50, ""⟩ ⟨"B", 10, 50, ""⟩ =
      fallbackCities envInterpA "A" "B" ⟨"A", 0, 50, ""⟩ ⟨"B", 10, 50, ""⟩ 50 := rfl
  have hscan : curatedScan "A" "B" ⟨"A", 0, 50, ""⟩ ⟨"B", 10, 50, ""⟩ 50 = [] :=
    curatedScan_empty rfl rfl (by norm_num) (by norm_num) rfl
  have htot : (100 : ℝ) < calculate_distance 0 50 10 50 := by
    rw [dist_meridian 50 10 (by norm_num) (by norm_num)]
    unfold radians
    nlinarith [Real.pi_gt_d6]
  have hfall : fallbackCities envInterpA "A" "B"
      ⟨"A", 0, 50, ""⟩ ⟨"B", 10, 50, ""⟩ 50 =
      (interpPoints ⟨"A", 0, 50, ""⟩ ⟨"B", 10, 50, ""⟩
        (numPoints (calculate_distance 0 50 10 50))).foldl
        (interpStep envInterpA ⟨"A", 0, 50, ""⟩) [] := by
    simp only [fallbackCities, hscan]
    rw [if_pos]
    exact ⟨by norm_num, htot⟩
  obtain ⟨p, rest, hp⟩ : ∃ p rest,
      interpPoints ⟨"A", 0, 50, ""⟩ ⟨"B", 10, 50, ""⟩
        (numPoints (calculate_distance 0 50 10 50)) = p :: rest := by
    have hn : 2 ≤ numPoints (calculate_distance 0 50 10 50) := by
      unfold numPoints
      omega
    cases hpts : interpPoints ⟨"A", 0, 50, ""⟩ ⟨"B", 10, 50, ""⟩
        (numPoints (calculate_distance 0 50 10 50)) with
    | nil =>
      have hlen := interpPoints_length ⟨"A", 0, 50, ""⟩ ⟨"B", 10, 50, ""⟩
        (numPoints (calculate_distance 0 50 10 50))
      rw [hpts] at hlen
      simp at hlen
      omega
    | cons p rest => exact ⟨p, rest, rfl⟩
  have hrev : ∀ x y : ℝ, reverse_geocode envInterpA x y = some ⟨"A", "", ""⟩ :=
    fun _ _ => rfl
  have hfold : (p :: rest).foldl (interpStep envInterpA ⟨"A", 0, 50, ""⟩) [] =
      [⟨"A", p.1, p.2, "",
        round2 (calculate_distance 0 50 p.1 p.2), false, false⟩] :=
    interpFold_const_name hrev p rest
  refine List.mem_map.mpr ⟨⟨"A", p.1, p.2, "",
    round2 (calculate_distance 0 50 p.1 p.2), false, false⟩, ?_, rfl⟩
  rw [hfind]
  show _ ∈ sortByDistance _
  rw [mem_sortByDistance, hroute, hfall, hp, hfold]
  exact List.mem_singleton_self _

theorem envPrimary_waypoint_cities :
    find_cities_from_route_waypoints envPrimary [⟨some 11, some 50⟩] "A" "B" 10 =
      [⟨"Midville", 11, 50, ""⟩] := by
  unfold find_cities_from_route_waypoints
  have hsample : sampleEvery [(⟨some 11, some 50⟩ : Waypoint)] 10 =
      [⟨some 11, some 50⟩] := by
    rw [sampleEvery.eq_def]
    simp [sampleEvery.eq_def]
  rw [hsample, List.foldl_cons, List.foldl_nil]
  simp only [wpStep]
  rw [if_neg (by norm_num : ¬((11:ℝ) = 0 ∨ (50:ℝ) = 0))]
  rfl

theorem envPrimary_resolved :
    resolved_route envPrimary "A" "B" =
      Except.ok [⟨"A", 0, 50, "", 0, true, false⟩,
        ⟨"Midville", 11, 50, "", round2 (calculate_distance 0 50 11 50), false, false⟩,
        ⟨"B", 0, 50, "", round2 (calculate_distance 0 50 0 50), false, true⟩] := by
  have hfind : find_cities_along_route envPrimary "A" "B" 50 =
      Except.ok (sortByDistance ((find_cities_from_route_waypoints envPrimary
        [⟨some 11, some 50⟩] "A" "B" 10).map
        (fun c => ⟨c.name, c.lat, c.lon, c.state,
          round2 (calculate_distance 0 50 c.lat c.lon), false, false⟩))) := rfl
  rw [envPrimary_waypoint_cities] at hfind
  have hsort : sortByDistance
      [⟨"Midville", 11, 50, "", round2 (calculate_distance 0 50 11 50), false, false⟩] =
      [⟨"Midville", 11, 50, "", round2 (calculate_distance 0 50 11 50), false, false⟩] := by
    unfold sortByDistance
    exact List.mergeSort_singleton _
  simp only [List.map] at hfind
  rw [hsort] at hfind
  have hshape : resolved_route envPrimary "A" "B" =
      (match find_cities_along_route envPrimary "A" "B" 50 with
       | Except.error msg => Except.error msg
       | Except.ok inter => Except.ok (build_all_cities ⟨"A", 0, 50, ""⟩
          ⟨"B", 0, 50, ""⟩ (calculate_distance 0 50 0 50) inter)) := rfl
  rw [hshape, hfind]
  rfl

/-- C5 refutation: on the primary path with both endpoints geocoded to
the same point and a waypoint city beyond the end, the full resolved
sequence is not sorted ascending by distance-from-start. -/
theorem C5_counterexample_not_sorted :
    ¬ List.Pairwise (fun a b => a.distance_from_start ≤ b.distance_from_start)
      (citiesOf (resolved_route envPrimary "A" "B")) := by
  rw [envPrimary_resolved]
  intro h
  have h2 := (List.pairwise_cons.mp ((List.pairwise_cons.mp h).2)).1
  have hmid : round2 (calculate_distance 0 50 11 50) ≤
      round2 (calculate_distance 0 50 0 50) := by
    exact h2 _ (List.mem_singleton_self _)
  rw [calculate_distance_self, round2_zero] at hmid
  have hd1 : calculate_distance 0 50 11 50 = 6371 * radians 11 :=
    dist_meridian 50 11 (by norm_num) (by norm_num)
  have hlb : (1222 : ℝ) ≤ calculate_distance 0 50 11 50 := by
    rw [hd1]
    unfold radians
    nlinarith [Real.pi_gt_d6]
  have hgt := round2_gt (calculate_distance 0 50 11 50)
  linarith [hmid, hgt, hlb]

theorem C4_amended_start_end_exclusion_witness :
    lowerStr "Midville" ≠ lowerStr "A" ∧ lowerStr "Midville" ≠ lowerStr "B" :=
  C4_amended_start_end_exclusion.1 envPrimary [⟨some 11, some 50⟩] "A" "B" 10
    ⟨"Midville", 11, 50, ""⟩
    (by rw [envPrimary_waypoint_cities]; exact List.mem_singleton_self _)

/-- C5 amended: in every successful resolution the full sequence starts
with the START record at distance 0 and ends with the END record, and the
intermediate cities are sorted ascending by `distance_from_start` with
nonnegative distances; the full sequence however need not be sorted,
because an intermediate's distance may exceed the END record's rounded
total (see the counterexample). -/
theorem C5_amended_route_order :
    ∀ (env : Env) (s e : String) (all : List RouteCity),
      resolved_route env s e = Except.ok all →
      (∃ first rest, all = first :: rest ∧ first.distance_from_start = 0 ∧
        first.is_start = true) ∧
      (∃ last, all.getLast? = some last ∧ last.is_end = true) ∧
      List.Pairwise (fun a b => a.distance_from_start ≤ b.distance_from_start)
        ((all.drop 1).dropLast) ∧
      (∀ c ∈ (all.drop 1).dropLast, 0 ≤ c.distance_from_start) := by
  intro env s e all h
  unfold resolved_route at h
  split at h
  · exact absurd h (by simp)
  · split at h
    · exact absurd h (by simp)
    · split at h
      · rename_i A B hA hB
        split at h
        · exact absurd h (by simp)
        · rename_i inter hinter
          injection h with h
          subst h
          have hprops : List.Pairwise
              (fun a b => a.distance_from_start ≤ b.distance_from_start) inter ∧
              ∀ c ∈ inter, 0 ≤ c.distance_from_start := by
            rcases find_cities_ok_cases hinter with hnil | ⟨A', B', _, _, heq⟩
            · subst hnil
              exact ⟨List.Pairwise.nil, by simp⟩
            · subst heq
              exact ⟨sortByDistance_pairwise _,
                fun c hc => mem_routeCitiesOf_nonneg (mem_sortByDistance.mp hc)⟩
          unfold build_all_cities
          refine ⟨⟨_, _, rfl, rfl, rfl⟩,
            ⟨⟨B.name, B.lat, B.lon, B.state,
              round2 (calculate_distance A.lat A.lon B.lat B.lon), false, true⟩,
              ?_, rfl⟩, ?_, ?_⟩
          · rw [show (⟨A.name, A.lat, A.lon, A.state, 0, true, false⟩ :
                RouteCity) :: (inter ++ [⟨B.name, B.lat, B.lon, B.state,
                  round2 (calculate_distance A.lat A.lon B.lat B.lon),
                  false, true⟩]) =
              ((⟨A.name, A.lat, A.lon, A.state, 0, true, false⟩ :: inter) ++
                [⟨B.name, B.lat, B.lon, B.state,
                  round2 (calculate_distance A.lat A.lon B.lat B.lon),
                  false, true⟩]) from by simp]
            exact List.getLast?_concat _
          · simp only [List.drop_succ_cons, List.drop_zero, List.dropLast_concat]
            exact hprops.1
          · simp only [List.drop_succ_cons, List.drop_zero, List.dropLast_concat]
            exact hprops.2
      · exact absurd h (by simp)

theorem C5_amended_route_order_witness :
    (∃ first rest,
      ([⟨"A", 0, 50, "", 0, true, false⟩,
        ⟨"Midville", 11, 50, "", round2 (calculate_distance 0 50 11 50), false, false⟩,
        ⟨"B", 0, 50, "", round2 (calculate_distance 0 50 0 50), false, true⟩] :
          List RouteCity) = first :: rest ∧
      first.distance_from_start = 0 ∧ first.is_start = true) ∧
    (∃ last, ([⟨"A", 0, 50, "", 0, true, false⟩,
        ⟨"Midville", 11, 50, "", round2 (calculate_distance 0 50 11 50), false, false⟩,
        ⟨"B", 0, 50, "", round2 (calculate_distance 0 50 0 50), false, true⟩] :
          List RouteCity).getLast? = some last ∧ last.is_end = true) ∧
    List.Pairwise (fun a b => a.distance_from_start ≤ b.distance_from_start)
      ((([⟨"A", 0, 50, "", 0, true, false⟩,
        ⟨"Midville", 11, 50, "", round2 (calculate_distance 0 50 11 50), false, false⟩,
        ⟨"B", 0, 50, "", round2 (calculate_distance 0 50 0 50), false, true⟩] :
          List RouteCity).drop 1).dropLast) ∧
    (∀ c ∈ (([⟨"A", 0, 50, "", 0, true, false⟩,
        ⟨"Midville", 11, 50, "", round2 (calculate_distance 0 50 11 50), false, false⟩,
        ⟨"B", 0, 50, "", round2 (calculate_distance 0 50 0 50), false, true⟩] :
          List RouteCity).drop 1).dropLast, 0 ≤ c.distance_from_start) :=
  C5_amended_route_order envPrimary "A" "B" _ envPrimary_resolved

theorem envInterpCount_total :
    calculate_distance 0 50 1.5 50 = 6371 * radians 1.5 :=
  dist_meridian 50 1.5 (by norm_num) (by norm_num)

theorem envInterpCount_floor :
    ⌊calculate_distance 0 50 1.5 50 / 100⌋ = 1 := by
  rw [envInterpCount_total]
  unfold radians
  rw [Int.floor_eq_iff]
  push_cast
  constructor
  · nlinarith [Real.pi_gt_d6]
  · nlinarith [Real.pi_lt_d6]

theorem envInterpCount_points :
    interpPoints ⟨"A", 0, 50, ""⟩ ⟨"B", 1.5, 50, ""⟩ 2 =
      [((0.5 : ℝ), (50 : ℝ)), ((1 : ℝ), (50 : ℝ))] := by
  unfold interpPoints
  norm_num [List.range_succ]

theorem envInterpCount_rev1 :
    reverse_geocode envInterpCount 0.5 50 = some ⟨"Pone", "", ""⟩ := by
  rw [show reverse_geocode envInterpCount 0.5 50 =
    some (if (0.5 : ℝ) < 0.75 then (⟨"Pone", "", ""⟩ : CityInfo)
      else ⟨"Ptwo", "", ""⟩) from rfl]
  rw [if_pos (by norm_num)]

theorem envInterpCount_rev2 :
    reverse_geocode envInterpCount 1 50 = some ⟨"Ptwo", "", ""⟩ := by
  rw [show reverse_geocode envInterpCount 1 50 =
    some (if (1 : ℝ) < 0.75 then (⟨"Pone", "", ""⟩ : CityInfo)
      else ⟨"Ptwo", "", ""⟩) from rfl]
  rw [if_neg (by norm_num)]

/-- C6 refutation: with total distance about 167 km (so `int(td / 100)`
is 1), the fallback synthesizes two interpolation points - the code
clamps the count from below at 2, not at 1 as the claim states - and the
resolver returns two distinct reverse-geocoded cities where the claimed
formula `min(5, max(1, td / 100)) = 1` admits at most one. -/
theorem C6_counterexample_point_count :
    (citiesOf (find_cities_along_route envInterpCount "A" "B" 50)).length = 2 ∧
    min 5 (max 1 (Int.toNat ⌊calculate_distance 0 50 1.5 50 / 100⌋)) = 1 := by
  constructor
  · have hfind : find_cities_along_route envInterpCount "A" "B" 50 =
        Except.ok (sortByDistance (routeCitiesOf envInterpCount "A" "B" 50
          ⟨"A", 0, 50, ""⟩ ⟨"B", 1.5, 50, ""⟩)) := rfl
    have hroute : routeCitiesOf envInterpCount "A" "B" 50
        ⟨"A", 0, 50, ""⟩ ⟨"B", 1.5, 50, ""⟩ =
        fallbackCities envInterpCount "A" "B"
          ⟨"A", 0, 50, ""⟩ ⟨"B", 1.5, 50, ""⟩ 50 := rfl
    have hscan : curatedScan "A" "B" ⟨"A", 0, 50, ""⟩ ⟨"B", 1.5, 50, ""⟩ 50 = [] :=
      curatedScan_empty rfl rfl (by norm_num) (by norm_num) rfl
    have htot : (100 : ℝ) < calculate_distance 0 50 1.5 50 := by
      rw [envInterpCount_total]
      unfold radians
      nlinarith [Real.pi_gt_d6]
    have hfall : fallbackCities envInterpCount "A" "B"
        ⟨"A", 0, 50, ""⟩ ⟨"B", 1.5, 50, ""⟩ 50 =
        (interpPoints ⟨"A", 0, 50, ""⟩ ⟨"B", 1.5, 50, ""⟩
          (numPoints (calculate_distance 0 50 1.5 50))).foldl
          (interpStep envInterpCount ⟨"A", 0, 50, ""⟩) [] := by
      simp only [fallbackCities, hscan]
      rw [if_pos]
      exact ⟨by norm_num, htot⟩
    have hnum : numPoints (calculate_distance 0 50 1.5 50) = 2 := by
      unfold numPoints
      rw [envInterpCount_floor]
      rfl
    have hstep1 : interpStep envInterpCount ⟨"A", 0, 50, ""⟩ [] ((0.5 : ℝ), (50 : ℝ)) =
        [⟨"Pone", 0.5, 50, "", round2 (calculate_distance 0 50 0.5 50),
          false, false⟩] := by
      unfold interpStep
      rw [envInterpCount_rev1]
      simp
    have hstep2 : interpStep envInterpCount ⟨"A", 0, 50, ""⟩
        [⟨"Pone", 0.5, 50, "", round2 (calculate_distance 0 50 0.5 50),
          false, false⟩] ((1 : ℝ), (50 : ℝ)) =
        [⟨"Pone", 0.5, 50, "", round2 (calculate_distance 0 50 0.5 50), false, false⟩,
         ⟨"Ptwo", 1, 50, "", round2 (calculate_distance 0 50 1 50), false, false⟩] := by
      unfold interpStep
      rw [envInterpCount_rev2]
      simp
      decide
    rw [hfind]
    show (sortByDistance _).length = 2
    rw [hroute, hfall, hnum, envInterpCount_points]
    rw [List.foldl_cons, hstep1, List.foldl_cons, hstep2, List.foldl_nil]
    unfold sortByDistance
    rw [List.length_mergeSort]
    rfl
  · rw [envInterpCount_floor]
    rfl

/-- C6 amended: interpolation points are synthesized exactly in the
fallback when fewer than 2 curated cities were found and the total
distance exceeds 100 km (this is the guard in `fallbackCities`); they are
evenly spaced along the straight start-end segment with step 1/(n+1) of
the difference; the count is `min(5, max(2, floor(td / 100)))` - between
2 and 5, one point per full 100 km below 500 km, and 5 from 500 km on. -/
theorem C6_amended_interpolation :
    (∀ td : ℝ, 2 ≤ numPoints td ∧ numPoints td ≤ 5) ∧
    (∀ td : ℝ, 100 < td → td < 500 →
      numPoints td = max 2 (Int.toNat ⌊td / 100⌋)) ∧
    (∀ td : ℝ, 500 ≤ td → numPoints td = 5) ∧
    (∀ (A B : GeoResult) (n i : ℕ) (p q : ℝ × ℝ),
      (interpPoints A B n)[i]? = some p → (interpPoints A B n)[i + 1]? = some q →
      q.1 - p.1 = (B.lat - A.lat) / ((n : ℝ) + 1) ∧
      q.2 - p.2 = (B.lon - A.lon) / ((n : ℝ) + 1)) := by
  refine ⟨?_, ?_, ?_, ?_⟩
  · intro td
    unfold numPoints
    omega
  · intro td h1 h5
    have hf : ⌊td / 100⌋ < 5 := by
      rw [Int.floor_lt]
      push_cast
      linarith
    unfold numPoints
    omega
  · intro td h5
    have hf : (5 : ℤ) ≤ ⌊td / 100⌋ := by
      rw [Int.le_floor]
      push_cast
      linarith
    unfold numPoints
    omega
  · intro A B n i p q hp hq
    unfold interpPoints at hp hq
    rw [List.getElem?_map] at hp hq
    have hin : i < n := by
      by_contra hcon
      rw [List.getElem?_eq_none (by simpa using hcon)] at hp
      simp at hp
    have hin1 : i + 1 < n := by
      by_contra hcon
      rw [List.getElem?_eq_none (by simpa using hcon)] at hq
      simp at hq
    rw [List.getElem?_range hin] at hp
    rw [List.getElem?_range hin1] at hq
    simp only [Option.map_some'] at hp hq
    have hn0 : ((n : ℝ) + 1) ≠ 0 := by positivity
    injection hp with hp
    injection hq with hq
    subst hp
    subst hq
    dsimp only
    constructor
    · push_cast
      field_simp
      ring
    · push_cast
      field_simp
      ring

theorem C6_amended_interpolation_witness :
    2 ≤ numPoints 150 ∧ numPoints 150 = max 2 (Int.toNat ⌊(150 : ℝ) / 100⌋) :=
  ⟨(C6_amended_interpolation.1 150).1,
   C6_amended_interpolation.2.1 150 (by norm_num) (by norm_num)⟩

theorem foldl_cityWeatherStep (env : Env) :
    ∀ (l : List RouteCity) (acc : List CityData × List String × List String),
      l.foldl (cityWeatherStep env) acc =
        (acc.1 ++ l.filterMap (perCityData env),
         acc.2.1 ++ (l.map (perCityWarnings env)).flatten,
         acc.2.2 ++ (l.map (perCitySevere env)).flatten) := by
  intro l
  induction l with
  | nil => intro acc; simp
  | cons city t ih =>
    intro acc
    rw [List.foldl_cons, ih]
    cases hw : env.get_weather_data city.name with
    | error msg =>
      simp [cityWeatherStep, perCityData, perCityWarnings, perCitySevere, hw]
    | ok w =>
      by_cases hs : w.success
      · simp only [cityWeatherStep, perCityData, perCityWarnings, perCitySevere,
          hw, hs, if_true, List.filterMap_cons, List.map_cons, List.flatten_cons]
        split_ifs <;> simp [List.append_assoc]
      · simp [cityWeatherStep, perCityData, perCityWarnings, perCitySevere, hw, hs]

/-- C3: the orchestrator always returns either a success dictionary or a
failure dictionary and never lets an exception escape; a failed geocode
of start or end (absent result or raised exception) yields the failure
dictionary; and after successful geocoding and resolution the per-city
weather loop is equivalent to an independent per-city outcome map, so a
raised or unsuccessful weather fetch only removes that city's
contributions without aborting the rest of the batch. -/
theorem C3_orchestrator_isolates_failures :
    ∀ (env : Env) (start_city end_city : String),
      ((∃ route cities warns sev rec,
          get_route_weather_analysis env start_city end_city =
            RouteResp.success route cities warns sev rec) ∨
        (∃ msg, get_route_weather_analysis env start_city end_city =
          RouteResp.failure msg)) ∧
      ((env.geocode_location start_city = Except.ok none ∨
        (∃ m, env.geocode_location start_city = Except.error m) ∨
        env.geocode_location end_city = Except.ok none ∨
        (∃ m, env.geocode_location end_city = Except.error m)) →
        ∃ msg, get_route_weather_analysis env start_city end_city =
          RouteResp.failure msg) ∧
      (∀ (A B : GeoResult) (inter : List RouteCity),
        env.geocode_location start_city = Except.ok (some A) →
        env.geocode_location end_city = Except.ok (some B) →
        find_cities_along_route env start_city end_city 50 = Except.ok inter →
        get_route_weather_analysis env start_city end_city =
          RouteResp.success
            ⟨start_city, end_city,
              round2 (calculate_distance A.lat A.lon B.lat B.lon),
              (build_all_cities A B
                (calculate_distance A.lat A.lon B.lat B.lon) inter).length⟩
            ((build_all_cities A B
              (calculate_distance A.lat A.lon B.lat B.lon) inter).filterMap
              (perCityData env))
            (((build_all_cities A B
              (calculate_distance A.lat A.lon B.lat B.lon) inter).map
              (perCityWarnings env)).flatten)
            (((build_all_cities A B
              (calculate_distance A.lat A.lon B.lat B.lon) inter).map
              (perCitySevere env)).flatten)
            (generate_route_recommendation
              ((build_all_cities A B
                (calculate_distance A.lat A.lon B.lat B.lon) inter).filterMap
                (perCityData env))
              (((build_all_cities A B
                (calculate_distance A.lat A.lon B.lat B.lon) inter).map
                (perCityWarnings env)).flatten)
              (((build_all_cities A B
                (calculate_distance A.lat A.lon B.lat B.lon) inter).map
                (perCitySevere env)).flatten))) := by
  intro env s e
  refine ⟨?_, ?_, ?_⟩
  · unfold get_route_weather_analysis
    cases hb : analysisBody env s e with
    | error msg => exact Or.inr ⟨msg, rfl⟩
    | ok r =>
      cases r with
      | success a b c d f => exact Or.inl ⟨a, b, c, d, f, rfl⟩
      | failure msg => exact Or.inr ⟨msg, rfl⟩
  · intro h
    unfold get_route_weather_analysis analysisBody
    cases hg1 : env.geocode_location s with
    | error m1 => exact ⟨m1, rfl⟩
    | ok sc =>
      cases hg2 : env.geocode_location e with
      | error m2 => exact ⟨m2, rfl⟩
      | ok ec =>
        cases sc with
        | none => exact ⟨"Could not geocode start or end city", rfl⟩
        | some A =>
          cases ec with
          | none => exact ⟨"Could not geocode start or end city", rfl⟩
          | some B =>
            exfalso
            rcases h with h | ⟨m, h⟩ | h | ⟨m, h⟩ <;> simp_all
  · intro A B inter h1 h2 h3
    unfold get_route_weather_analysis analysisBody
    rw [h1, h2, h3]
    dsimp only
    rw [foldl_cityWeatherStep]
    simp

theorem C3_orchestrator_isolates_failures_witness :
    ∃ msg, get_route_weather_analysis envNoGeo "A" "B" = RouteResp.failure msg :=
  (C3_orchestrator_isolates_failures envNoGeo "A" "B").2.1 (Or.inl rfl)

end RoutePlanning
